import Mathlib

/-!
Verification of the SmartFlow marketing-and-growth core subsystems:
the A/B testing statistical engine (`src/ab_testing.py`) and the
booking-reminder scheduler (`_send_booking_reminders` in the backup app
module).  Python floats are modelled as exact rationals (`ℚ`): every
comparison the claims exercise is far from the float rounding scale, so
conclusions transfer.  Timestamps are modelled as integer minutes,
generated uuids and "current time" as explicit arguments, and the
JSON-file-per-experiment store as an association list keyed by id.
-/

set_option maxHeartbeats 1000000

namespace ABTesting

/-- Experiment lifecycle states (`ExperimentStatus` enum). -/
inductive ExperimentStatus where
  | draft
  | running
  | paused
  | completed
  | archived
  deriving DecidableEq, Repr

/-- Types of A/B tests (`ExperimentType` enum). -/
inductive ExperimentType where
  | email_subject
  | email_content
  | landing_page
  | cta_button
  | pricing_page
  | ad_creative
  | social_post
  | custom
  deriving DecidableEq, Repr

/-- `Variant` dataclass: one tested alternative inside an experiment. -/
structure Variant where
  id : String
  name : String
  description : String
  traffic_allocation : ℚ
  impressions : Nat
  conversions : Nat
  revenue : ℚ
  conversion_rate : ℚ
  revenue_per_visitor : ℚ
  deriving DecidableEq, Repr

/-- `Variant.__post_init__`: recompute the derived metrics, but only when
`impressions > 0`; otherwise the stored values are left untouched. -/
def Variant.post_init (v : Variant) : Variant :=
  if 0 < v.impressions then
    { v with
      conversion_rate := ((v.conversions : ℚ) / (v.impressions : ℚ)) * 100,
      revenue_per_visitor := v.revenue / (v.impressions : ℚ) }
  else v

/-- `Experiment` dataclass. -/
structure Experiment where
  id : String
  name : String
  description : String
  type : ExperimentType
  status : ExperimentStatus
  variants : List Variant
  start_date : Option ℤ
  end_date : Option ℤ
  created_at : ℤ
  minimum_sample_size : Nat
  confidence_level : ℚ
  winner : Option String
  statistical_significance : Option ℚ
  deriving DecidableEq, Repr

/-- The JSON-file store: one record per experiment id. -/
abbrev Store := List (String × Experiment)

/-- Point lookup by id (first matching file wins, ids are unique in practice). -/
def find_experiment : Store → String → Option Experiment
  | [], _ => none
  | (k, e) :: rest, experiment_id =>
      if k = experiment_id then some e else find_experiment rest experiment_id

/-- `_save_experiment`: write the record under `experiment.id`, overwriting
any existing record with that id. -/
def save_experiment : Store → Experiment → Store
  | [], e => [(e.id, e)]
  | (k, v) :: rest, e =>
      if k = e.id then (e.id, e) :: rest else (k, v) :: save_experiment rest e

/-- `_load_experiment`: raises `ValueError(f"Experiment {id} not found")`
when the record is absent, modelled as `Except.error`. -/
def load_experiment (store : Store) (experiment_id : String) : Except String Experiment :=
  match find_experiment store experiment_id with
  | some e => Except.ok e
  | none => Except.error ("Experiment " ++ experiment_id ++ " not found")

/-- `_chi_squared_p_value`: fixed lookup table of df=1 critical values. -/
def chi_squared_p_value (chi_squared : ℚ) (df : Nat) : ℚ :=
  if df = 1 then
    if 1083/100 ≤ chi_squared then 1/1000
    else if 788/100 ≤ chi_squared then 5/1000
    else if 663/100 ≤ chi_squared then 1/100
    else if 384/100 ≤ chi_squared then 5/100
    else if 271/100 ≤ chi_squared then 1/10
    else 1/2
  else 1/2

/-- `_chi_squared_test`: 2×2 chi-squared statistic plus table p-value;
`None` (here `none`) when either variant has zero impressions. -/
def chi_squared_test (conversions_a impressions_a conversions_b impressions_b : Nat) :
    Option (ℚ × ℚ) :=
  if impressions_a = 0 ∨ impressions_b = 0 then none
  else
    let obs_conv_a : ℚ := conversions_a
    let obs_no_conv_a : ℚ := (impressions_a : ℚ) - (conversions_a : ℚ)
    let obs_conv_b : ℚ := conversions_b
    let obs_no_conv_b : ℚ := (impressions_b : ℚ) - (conversions_b : ℚ)
    let total_conversions := obs_conv_a + obs_conv_b
    let total_no_conversions := obs_no_conv_a + obs_no_conv_b
    let total_impressions : ℚ := (impressions_a : ℚ) + (impressions_b : ℚ)
    if total_impressions = 0 then none
    else
      let exp_conv_a := (impressions_a : ℚ) * total_conversions / total_impressions
      let exp_no_conv_a := (impressions_a : ℚ) * total_no_conversions / total_impressions
      let exp_conv_b := (impressions_b : ℚ) * total_conversions / total_impressions
      let exp_no_conv_b := (impressions_b : ℚ) * total_no_conversions / total_impressions
      let chi1 : ℚ := if 0 < exp_conv_a then (obs_conv_a - exp_conv_a) ^ 2 / exp_conv_a else 0
      let chi2 : ℚ :=
        chi1 + (if 0 < exp_no_conv_a then (obs_no_conv_a - exp_no_conv_a) ^ 2 / exp_no_conv_a else 0)
      let chi3 : ℚ :=
        chi2 + (if 0 < exp_conv_b then (obs_conv_b - exp_conv_b) ^ 2 / exp_conv_b else 0)
      let chi4 : ℚ :=
        chi3 + (if 0 < exp_no_conv_b then (obs_no_conv_b - exp_no_conv_b) ^ 2 / exp_no_conv_b else 0)
      some (chi4, chi_squared_p_value chi4 1)

/-- `_determine_winner`: (no winner, no significance) when fewer than two
variants or any variant under the sample-size threshold; otherwise compare
the first two variants by `conversion_rate` (strict `>`, ties to B) and
convert the p-value to a confidence level. -/
def determine_winner (experiment : Experiment) : Option String × Option ℚ :=
  if experiment.variants.length < 2 then (none, none)
  else if experiment.variants.all
      (fun v => decide (experiment.minimum_sample_size ≤ v.impressions)) then
    match experiment.variants with
    | variant_a :: variant_b :: _ =>
        let tested := chi_squared_test variant_a.conversions variant_a.impressions
          variant_b.conversions variant_b.impressions
        let winner_id :=
          if variant_b.conversion_rate < variant_a.conversion_rate then variant_a.id
          else variant_b.id
        (some winner_id, tested.map (fun p => 1 - p.2))
    | _ => (none, none)
  else (none, none)

/-- Errors surfaced by `create_experiment`: the explicit `ValueError` on the
traffic-allocation sum, and the `ZeroDivisionError` raised while building the
default equal split `[1.0 / num_variants] * num_variants` when
`variant_names` is empty. -/
inductive CreateError where
  | validation (msg : String)
  | zero_division
  deriving DecidableEq, Repr

/-- `zip(variant_names, variant_descriptions, traffic_allocation)`:
truncates to the shortest list, exactly as Python's `zip`. -/
def zip3 : List String → List String → List ℚ → List (String × String × ℚ)
  | n :: ns, d :: ds, a :: al => (n, d, a) :: zip3 ns ds al
  | _, _, _ => []

/-- The variant built at loop index `i`: zeroed counters, then dataclass
`__post_init__` (a no-op at zero impressions). -/
def build_variant (i : Nat) (n d : String) (a : ℚ) : Variant :=
  Variant.post_init
    { id := "variant_" ++ toString i, name := n, description := d,
      traffic_allocation := a, impressions := 0, conversions := 0, revenue := 0,
      conversion_rate := 0, revenue_per_visitor := 0 }

/-- The `enumerate` loop body: one variant per zipped triple, indices
counting up from `i`. -/
def build_variants_go (i : Nat) : List (String × String × ℚ) → List Variant
  | [] => []
  | p :: rest => build_variant i p.1 p.2.1 p.2.2 :: build_variants_go (i + 1) rest

/-- The variants created by the `for i, (name, desc, allocation) in
enumerate(zip(...))` loop. -/
def build_variants (variant_names variant_descriptions : List String)
    (traffic_allocation : List ℚ) : List Variant :=
  build_variants_go 0 (zip3 variant_names variant_descriptions traffic_allocation)

/-- The value of the local `name` when `Experiment(...)` is constructed: the
loop variable `name` shadows the parameter, so after a non-empty loop it
holds the last zipped variant name. -/
def shadowed_name (name : String) (variant_names variant_descriptions : List String)
    (traffic_allocation : List ℚ) : String :=
  match (zip3 variant_names variant_descriptions traffic_allocation).getLast? with
  | some p => p.1
  | none => name

/-- Body of `create_experiment` after the traffic allocation has been
resolved to a concrete list. -/
def create_experiment_core (experiment_id : String) (created_at : ℤ)
    (name description : String) (experiment_type : ExperimentType)
    (variant_names variant_descriptions : List String)
    (traffic_allocation : List ℚ) (minimum_sample_size : Nat)
    (confidence_level : ℚ) : Except CreateError Experiment :=
  if 1/1000 < |traffic_allocation.sum - 1| then
    Except.error (CreateError.validation "Traffic allocation must sum to 1.0")
  else
    Except.ok
      { id := experiment_id,
        name := shadowed_name name variant_names variant_descriptions traffic_allocation,
        description := description,
        type := experiment_type,
        status := ExperimentStatus.draft,
        variants := build_variants variant_names variant_descriptions traffic_allocation,
        start_date := none, end_date := none, created_at := created_at,
        minimum_sample_size := minimum_sample_size,
        confidence_level := confidence_level,
        winner := none, statistical_significance := none }

/-- `create_experiment`: defaults `traffic_allocation` to an equal split
(crashing with `ZeroDivisionError` when `variant_names` is empty), validates
only the sum of the allocation list, then builds and returns the experiment.
The generated uuid and the creation time are passed in explicitly. -/
def create_experiment (experiment_id : String) (created_at : ℤ)
    (name description : String) (experiment_type : ExperimentType)
    (variant_names variant_descriptions : List String)
    (traffic_allocation : Option (List ℚ)) (minimum_sample_size : Nat)
    (confidence_level : ℚ) : Except CreateError Experiment :=
  match traffic_allocation with
  | none =>
      if variant_names.length = 0 then Except.error CreateError.zero_division
      else
        create_experiment_core experiment_id created_at name description experiment_type
          variant_names variant_descriptions
          (List.replicate variant_names.length ((1 : ℚ) / (variant_names.length : ℚ)))
          minimum_sample_size confidence_level
  | some al =>
      create_experiment_core experiment_id created_at name description experiment_type
        variant_names variant_descriptions al minimum_sample_size confidence_level

/-- `create_experiment` including the `_save_experiment` side effect. -/
def create_experiment_run (store : Store) (experiment_id : String) (created_at : ℤ)
    (name description : String) (experiment_type : ExperimentType)
    (variant_names variant_descriptions : List String)
    (traffic_allocation : Option (List ℚ)) (minimum_sample_size : Nat)
    (confidence_level : ℚ) : Except CreateError (Experiment × Store) :=
  (create_experiment experiment_id created_at name description experiment_type
      variant_names variant_descriptions traffic_allocation minimum_sample_size
      confidence_level).map (fun e => (e, save_experiment store e))

/-- `start_experiment`: load (NOT_FOUND error if absent), set
status=RUNNING, unconditionally set `start_date = datetime.utcnow()`,
persist, return. -/
def start_experiment (store : Store) (now : ℤ) (experiment_id : String) :
    Except String (Experiment × Store) :=
  (load_experiment store experiment_id).map (fun e =>
    let e2 := { e with status := ExperimentStatus.running, start_date := some now }
    (e2, save_experiment store e2))

/-- `pause_experiment`. -/
def pause_experiment (store : Store) (experiment_id : String) :
    Except String (Experiment × Store) :=
  (load_experiment store experiment_id).map (fun e =>
    let e2 := { e with status := ExperimentStatus.paused }
    (e2, save_experiment store e2))

/-- `complete_experiment`: set status=COMPLETED and `end_date`, run winner
determination, store winner and significance, persist. -/
def complete_experiment (store : Store) (now : ℤ) (experiment_id : String) :
    Except String (Experiment × Store) :=
  (load_experiment store experiment_id).map (fun e =>
    let e2 := { e with status := ExperimentStatus.completed, end_date := some now }
    let w := determine_winner e2
    let e3 := { e2 with winner := w.1, statistical_significance := w.2 }
    (e3, save_experiment store e3))

/-- The `for variant in experiment.variants: if variant.id == variant_id:
...; break` pattern: mutate the first matching variant only. -/
def update_first : List Variant → String → (Variant → Variant) → List Variant
  | [], _, _ => []
  | v :: rest, variant_id, f =>
      if v.id = variant_id then f v :: rest
      else v :: update_first rest variant_id f

/-- `record_impression`: increment `impressions` of the matching variant,
re-run `__post_init__`, persist the whole experiment. -/
def record_impression (store : Store) (experiment_id variant_id : String) :
    Except String Store :=
  (load_experiment store experiment_id).map (fun e =>
    save_experiment store
      { e with
        variants := update_first e.variants variant_id
          (fun v => Variant.post_init { v with impressions := v.impressions + 1 }) })

/-- `record_conversion`: increment `conversions`, add `revenue`, re-run
`__post_init__`, persist the whole experiment. -/
def record_conversion (store : Store) (experiment_id variant_id : String)
    (revenue : ℚ) : Except String Store :=
  (load_experiment store experiment_id).map (fun e =>
    save_experiment store
      { e with
        variants := update_first e.variants variant_id
          (fun v => Variant.post_init
            { v with conversions := v.conversions + 1, revenue := v.revenue + revenue }) })

end ABTesting

namespace Reminders

/-- Per-tenant `NotificationSettings`; `reminder_hours_before` defaults to 24
and falsy (zero) values also fall back to 24 at use sites. -/
structure NotificationSettings where
  email_enabled : Bool
  sms_enabled : Bool
  reminder_hours_before : Nat
  deriving DecidableEq, Repr

/-- A `Booking` row as the scheduler reads it; `start_at` in minutes. -/
structure Booking where
  id : String
  tenant_id : String
  status : String
  start_at : ℤ
  customer_email : Option String
  customer_phone : Option String
  deriving DecidableEq, Repr

/-- A `ReminderLog` row: the dedup key (booking_id, channel, kind). -/
structure ReminderLog where
  tenant_id : String
  booking_id : String
  channel : String
  kind : String
  deriving DecidableEq, Repr

/-- The persistent and observable state a scheduler run mutates: the
`ReminderLog` table plus traces of the emails and SMS actually dispatched
(successful sends, by booking id). -/
structure SchedState where
  reminder_log : List ReminderLog
  sent_emails : List String
  sent_sms : List String
  deriving DecidableEq, Repr

/-- State before any scheduler run: empty log, nothing dispatched. -/
def init_state : SchedState := { reminder_log := [], sent_emails := [], sent_sms := [] }

/-- The environment of a single `_send_booking_reminders` run: the wall
clock, the tenant table, per-tenant settings, the bookings table, whether
Twilio credentials are configured, per-booking outcomes of the two
notifier collaborators (`false` = the send raises / reports failure), and
which tenants raise an unhandled exception during their processing. -/
structure RunEnv where
  now : ℤ
  tenants : List String
  settings : String → NotificationSettings
  bookings : List Booking
  sms_keys : Bool
  email_ok : String → Bool
  sms_ok : String → Bool
  tenant_fails : String → Bool

/-- `hours = int(s.reminder_hours_before or 24)`: falsy zero falls back
to 24. -/
def effective_hours (s : NotificationSettings) : Nat :=
  if s.reminder_hours_before = 0 then 24 else s.reminder_hours_before

/-- `win_start = now + timedelta(hours=hours)`, `win_end = win_start +
timedelta(minutes=5)`, in minutes. -/
def reminder_window (now : ℤ) (s : NotificationSettings) : ℤ × ℤ :=
  let win_start := now + (effective_hours s : ℤ) * 60
  (win_start, win_start + 5)

/-- The candidate query: bookings of this tenant, confirmed, with
`start_at ∈ [win_start, win_end)`. -/
def is_candidate (env : RunEnv) (tid : String) (b : Booking) : Bool :=
  let w := reminder_window env.now (env.settings tid)
  b.tenant_id == tid && b.status == "confirmed" &&
    decide (w.1 ≤ b.start_at) && decide (b.start_at < w.2)

/-- `notif_ok(tenant_id, channel)` for the two channels the loop uses. -/
def notif_ok_email (env : RunEnv) (tid : String) : Bool :=
  (env.settings tid).email_enabled

/-- SMS needs the flag and configured Twilio credentials. -/
def notif_ok_sms (env : RunEnv) (tid : String) : Bool :=
  (env.settings tid).sms_enabled && env.sms_keys

/-- `ReminderLog.query.filter_by(booking_id=..., channel=..., kind=...)
.first()` as a boolean existence check. -/
def log_has (log : List ReminderLog) (bid channel kind : String) : Bool :=
  log.any (fun l => l.booking_id == bid && l.channel == channel && l.kind == kind)

/-- The email branch for one candidate booking: skip when the channel is
off or no address; skip when the dedup entry exists; otherwise attempt the
send and, on success, record the dispatch and insert the log entry. -/
def process_email (env : RunEnv) (tid : String) (st : SchedState) (b : Booking) :
    SchedState :=
  if notif_ok_email env tid && b.customer_email.isSome then
    if log_has st.reminder_log b.id "email" "before" then st
    else if env.email_ok b.id then
      { reminder_log :=
          { tenant_id := tid, booking_id := b.id, channel := "email", kind := "before" }
            :: st.reminder_log,
        sent_emails := b.id :: st.sent_emails,
        sent_sms := st.sent_sms }
    else st
  else st

/-- The SMS branch, mirroring the email branch with the Twilio gate. -/
def process_sms (env : RunEnv) (tid : String) (st : SchedState) (b : Booking) :
    SchedState :=
  if notif_ok_sms env tid && b.customer_phone.isSome then
    if log_has st.reminder_log b.id "sms" "before" then st
    else if env.sms_ok b.id then
      { reminder_log :=
          { tenant_id := tid, booking_id := b.id, channel := "sms", kind := "before" }
            :: st.reminder_log,
        sent_emails := st.sent_emails,
        sent_sms := b.id :: st.sent_sms }
    else st
  else st

/-- One candidate booking: email branch then SMS branch. -/
def process_booking (env : RunEnv) (tid : String) (st : SchedState) (b : Booking) :
    SchedState :=
  process_sms env tid (process_email env tid st b) b

/-- The `for b in candidates` loop. -/
def process_bookings (env : RunEnv) (tid : String) : SchedState → List Booking → SchedState
  | st, [] => st
  | st, b :: rest => process_bookings env tid (process_booking env tid st b) rest

/-- Everything one tenant's iteration does when no exception occurs. -/
def process_tenant (env : RunEnv) (st : SchedState) (tid : String) : SchedState :=
  process_bookings env tid st (env.bookings.filter (is_candidate env tid))

/-- The `for tid in tenant_ids` loop as written: the enclosing
`try/except` wraps the WHOLE loop, so an unhandled exception in one
tenant's processing (modelled as striking at the start of that tenant's
iteration) aborts the remaining tenants; state committed so far is kept. -/
def run_tenants (env : RunEnv) : List String → SchedState → SchedState
  | [], st => st
  | tid :: rest, st =>
      if env.tenant_fails tid then st
      else run_tenants env rest (process_tenant env st tid)

/-- One `_send_booking_reminders` run. -/
def send_booking_reminders (env : RunEnv) (st : SchedState) : SchedState :=
  run_tenants env env.tenants st

/-- Modelled from the spec: the spec's §4.2 step 6 / §7 UNEXPECTED variant
of the tenant loop, in which "any other exception during a tenant's
processing loop is caught at the tenant-iteration boundary ... other
tenants continue processing" — i.e. a failing tenant is skipped and the
sweep continues.  This definition follows the spec's words, for comparison
with `run_tenants`, which follows the source. -/
def run_tenants_isolated (env : RunEnv) : List String → SchedState → SchedState
  | [], st => st
  | tid :: rest, st =>
      if env.tenant_fails tid then run_tenants_isolated env rest st
      else run_tenants_isolated env rest (process_tenant env st tid)

/-- Modelled from the spec: a whole run under the spec's per-tenant
failure isolation. -/
def send_booking_reminders_isolated (env : RunEnv) (st : SchedState) : SchedState :=
  run_tenants_isolated env env.tenants st

/-- The tenant loop with no failing tenants: a plain fold. -/
def process_tenants (env : RunEnv) : SchedState → List String → SchedState
  | st, [] => st
  | st, tid :: rest => process_tenants env (process_tenant env st tid) rest

/-- A sequence of scheduler runs, each with its own environment. -/
def run_all : List RunEnv → SchedState → SchedState
  | [], st => st
  | env :: rest, st => run_all rest (send_booking_reminders env st)

/-- Number of email reminders dispatched for a booking id. -/
def email_sent_count (sent : List String) (bid : String) : Nat :=
  sent.countP (fun x => x == bid)

/-- Number of (booking_id, channel="email", kind="before") dedup entries. -/
def email_log_count (log : List ReminderLog) (bid : String) : Nat :=
  log.countP (fun l => l.booking_id == bid && l.channel == "email" && l.kind == "before")

end Reminders

namespace ABTesting

/-- Observable shape of a `start_experiment` result: the returned
experiment's `start_date` (or `none` on failure). -/
def start_result_start_date (r : Except String (Experiment × Store)) : Option (Option ℤ) :=
  match r with
  | Except.ok p => some p.1.start_date
  | Except.error _ => none

/-- Whether an `Except` result is a success. -/
def is_ok {ε α : Type} : Except ε α → Bool
  | Except.ok _ => true
  | Except.error _ => false

/-- Number of variants of a successfully created experiment. -/
def created_variant_count (r : Except CreateError Experiment) : Option Nat :=
  match r with
  | Except.ok e => some e.variants.length
  | Except.error _ => none

/-- Sum of the persisted variants' traffic allocations of a successfully
created experiment. -/
def created_alloc_sum (r : Except CreateError Experiment) : Option ℚ :=
  match r with
  | Except.ok e => some (e.variants.map Variant.traffic_allocation).sum
  | Except.error _ => none

/-- The derived-metrics invariant of a variant: the stored
`conversion_rate` and `revenue_per_visitor` agree with the counters. -/
def metrics_ok (v : Variant) : Prop :=
  (v.impressions = 0 → v.conversion_rate = 0 ∧ v.revenue_per_visitor = 0) ∧
  (0 < v.impressions →
    v.conversion_rate = ((v.conversions : ℚ) / (v.impressions : ℚ)) * 100 ∧
    v.revenue_per_visitor = v.revenue / (v.impressions : ℚ))

instance (v : Variant) : Decidable (metrics_ok v) := by
  unfold metrics_ok
  infer_instance

/-- The metrics invariant over every experiment stored. -/
def store_ok (store : Store) : Prop :=
  ∀ p ∈ store, ∀ v ∈ p.2.variants, metrics_ok v

instance (store : Store) : Decidable (store_ok store) := by
  unfold store_ok
  infer_instance

/-- Sample variant for witnesses: 200 impressions, 50 conversions. -/
def sample_vA : Variant :=
  ⟨"variant_0", "A", "a", 1/2, 200, 50, 0, 25, 0⟩

/-- Sample variant for witnesses: 200 impressions, 20 conversions. -/
def sample_vB : Variant :=
  ⟨"variant_1", "B", "b", 1/2, 200, 20, 0, 10, 0⟩

/-- Sample two-variant experiment with the sample threshold met. -/
def sample_exp2 : Experiment :=
  ⟨"e1", "E", "d", ExperimentType.custom, ExperimentStatus.running,
    [sample_vA, sample_vB], none, none, 0, 100, 95/100, none, none⟩

/-- Sample one-variant experiment. -/
def sample_exp1 : Experiment :=
  ⟨"e2", "E2", "d", ExperimentType.custom, ExperimentStatus.draft,
    [sample_vA], none, none, 0, 100, 95/100, none, none⟩

/-- Sample experiment that was already started (`start_date` set). -/
def sample_exp_started : Experiment :=
  ⟨"e1", "E", "d", ExperimentType.custom, ExperimentStatus.running,
    [], some 5, none, 0, 100, 95/100, none, none⟩

/-- Store holding the already-started experiment. -/
def sample_store_started : Store := [("e1", sample_exp_started)]

/-- Store holding the two-variant sample experiment. -/
def sample_store2 : Store := [("e1", sample_exp2)]

end ABTesting

namespace Reminders

/-- The at-most-once bookkeeping invariant tying the dispatch trace to the
dedup log: per booking, emails sent equal email/before log entries, and
never exceed one. -/
def email_inv (st : SchedState) : Prop :=
  ∀ bid, email_sent_count st.sent_emails bid = email_log_count st.reminder_log bid
    ∧ email_sent_count st.sent_emails bid ≤ 1

/-- A confirmed booking of tenant t2 at minute 1442 (inside the
[1440, 1445) window of a 24h lead time computed at now = 0); a Python-falsy
(absent or empty) customer_email is modelled as `none`. -/
def sample_booking2 : Booking :=
  ⟨"b2", "t2", "confirmed", 1442, some "c@x.io", none⟩

/-- Environment in which tenant t1 raises during its processing while
tenant t2 has a deliverable reminder. -/
def sample_envC4 : RunEnv :=
  { now := 0, tenants := ["t1", "t2"],
    settings := fun _ => ⟨true, false, 24⟩,
    bookings := [sample_booking2],
    sms_keys := false,
    email_ok := fun _ => true,
    sms_ok := fun _ => true,
    tenant_fails := fun t => t == "t1" }

/-- Environment with the single healthy tenant t2 and its one booking. -/
def sample_envC3 : RunEnv :=
  { now := 0, tenants := ["t2"],
    settings := fun _ => ⟨true, false, 24⟩,
    bookings := [sample_booking2],
    sms_keys := false,
    email_ok := fun _ => true,
    sms_ok := fun _ => true,
    tenant_fails := fun _ => false }

/-- A state in which booking b2's email reminder was already sent and
logged. -/
def sample_logged_state : SchedState :=
  { reminder_log := [⟨"t2", "b2", "email", "before"⟩],
    sent_emails := ["b2"], sent_sms := [] }

end Reminders

namespace ABTesting

/-- The record update `start_experiment` performs on a loaded experiment. -/
def started_copy (e : Experiment) (now : ℤ) : Experiment :=
  { e with status := ExperimentStatus.running, start_date := some now }

/-- The experiment the C10 witness creation call produces. -/
def sample_exp_c10 : Experiment :=
  ⟨"exp-c10", "Variant A", "d", ExperimentType.email_subject, ExperimentStatus.draft,
    [⟨"variant_0", "Control", "c", 1/2, 0, 0, 0, 0, 0⟩,
     ⟨"variant_1", "Variant A", "v", 1/2, 0, 0, 0, 0, 0⟩],
    none, none, 0, 100, 95/100, none, none⟩

theorem determine_winner_cons (e : Experiment) (va vb : Variant) (rest : List Variant)
    (hvar : e.variants = va :: vb :: rest)
    (hall : ∀ v ∈ e.variants, e.minimum_sample_size ≤ v.impressions) :
    determine_winner e =
      (some (if vb.conversion_rate < va.conversion_rate then va.id else vb.id),
        (chi_squared_test va.conversions va.impressions vb.conversions
          vb.impressions).map (fun p => 1 - p.2)) := by
  have h2 : ¬ e.variants.length < 2 := by
    rw [hvar]
    simp [List.length_cons]
  have hallb : e.variants.all
      (fun v => decide (e.minimum_sample_size ≤ v.impressions)) = true := by
    rw [List.all_eq_true]
    intro v hv
    exact decide_eq_true (hall v hv)
  unfold determine_winner
  rw [if_neg h2, if_pos hallb]
  rw [hvar]

/-- Claim C1: winner determination returns (no winner, no significance)
when there are fewer than 2 variants or some variant is under the
minimum sample size; otherwise exactly the first two variants are
compared and the first wins precisely when its conversion rate is
strictly higher, ties and all other cases going to the second. -/
theorem claim_C1 (e : Experiment) :
    ((e.variants.length < 2 ∨ ∃ v ∈ e.variants, v.impressions < e.minimum_sample_size) →
      determine_winner e = (none, none))
    ∧ (∀ va vb rest, e.variants = va :: vb :: rest →
        (∀ v ∈ e.variants, e.minimum_sample_size ≤ v.impressions) →
        (determine_winner e).1 =
          some (if vb.conversion_rate < va.conversion_rate then va.id else vb.id)) := by
  constructor
  · rintro (hlen | ⟨v, hv, hlt⟩)
    · unfold determine_winner
      rw [if_pos hlen]
    · unfold determine_winner
      by_cases hlen : e.variants.length < 2
      · rw [if_pos hlen]
      · have hall : e.variants.all
            (fun v => decide (e.minimum_sample_size ≤ v.impressions)) = false := by
          rw [List.all_eq_false]
          exact ⟨v, hv, by simpa using Nat.not_le.mpr hlt⟩
        rw [if_neg hlen, if_neg (by simp [hall])]
  · intro va vb rest hvar hall
    rw [determine_winner_cons e va vb rest hvar hall]

/-- Witness for C1 at concrete experiments. -/
theorem claim_C1_witness :
    determine_winner sample_exp1 = (none, none)
    ∧ (determine_winner sample_exp2).1 = some "variant_0" := by
  constructor
  · exact (claim_C1 sample_exp1).1 (Or.inl (by decide))
  · have h := (claim_C1 sample_exp2).2 sample_vA sample_vB [] rfl (by decide)
    rw [h]
    decide

/-- Claim C2 counterexample: the claim asserts chi_squared = 3.83 yields
significance 0.50, but 3.83 lies in the ≥ 2.71 bucket of the lookup
table, so p = 0.10 and significance = 0.90, not 0.50. -/
theorem claim_C2_counterexample :
    chi_squared_p_value (383/100) 1 = 1/10
    ∧ 1 - chi_squared_p_value (383/100) 1 = 9/10
    ∧ (9/10 : ℚ) ≠ 1/2 := by
  refine ⟨?_, ?_, ?_⟩ <;> norm_num [chi_squared_p_value]

/-- Claim C2 (amended): the df=1 p-value comes from the fixed lookup
table, and significance = 1 − p gives 0.95 at chi² = 3.84 and 0.999 at
chi² = 10.83; at chi² = 3.83 it gives 0.90 (the ≥ 2.71 bucket), not the
0.50 the claim stated. -/
theorem claim_C2 :
    (∀ x : ℚ, x < 271/100 → chi_squared_p_value x 1 = 1/2)
    ∧ (∀ x : ℚ, 271/100 ≤ x → x < 384/100 → chi_squared_p_value x 1 = 1/10)
    ∧ (∀ x : ℚ, 384/100 ≤ x → x < 663/100 → chi_squared_p_value x 1 = 5/100)
    ∧ (∀ x : ℚ, 663/100 ≤ x → x < 788/100 → chi_squared_p_value x 1 = 1/100)
    ∧ (∀ x : ℚ, 788/100 ≤ x → x < 1083/100 → chi_squared_p_value x 1 = 5/1000)
    ∧ (∀ x : ℚ, 1083/100 ≤ x → chi_squared_p_value x 1 = 1/1000)
    ∧ 1 - chi_squared_p_value (384/100) 1 = 95/100
    ∧ 1 - chi_squared_p_value (383/100) 1 = 9/10
    ∧ 1 - chi_squared_p_value (1083/100) 1 = 999/1000 := by
  refine ⟨fun x h => ?_, fun x h1 h2 => ?_, fun x h1 h2 => ?_, fun x h1 h2 => ?_,
    fun x h1 h2 => ?_, fun x h => ?_, ?_, ?_, ?_⟩
  case _ | _ | _ | _ | _ | _ =>
    unfold chi_squared_p_value
    split_ifs <;> first | rfl | linarith | exact absurd rfl (by assumption)
  case _ => norm_num [chi_squared_p_value]
  case _ => norm_num [chi_squared_p_value]
  case _ => norm_num [chi_squared_p_value]

/-- Witness for C2 at concrete table inputs. -/
theorem claim_C2_witness :
    chi_squared_p_value 3 1 = 1/10 ∧ chi_squared_p_value 7 1 = 1/100 :=
  ⟨claim_C2.2.1 3 (by norm_num) (by norm_num),
   claim_C2.2.2.2.1 7 (by norm_num) (by norm_num)⟩

theorem build_variant_name (i : Nat) (n d : String) (a : ℚ) :
    (build_variant i n d a).name = n := by
  simp [build_variant, Variant.post_init]

theorem build_variant_alloc (i : Nat) (n d : String) (a : ℚ) :
    (build_variant i n d a).traffic_allocation = a := by
  simp [build_variant, Variant.post_init]

theorem build_variants_go_last_name (z : List (String × String × ℚ)) :
    ∀ i, ((build_variants_go i z).getLast?).map Variant.name =
      z.getLast?.map (fun p => p.1) := by
  induction z with
  | nil => intro i; rfl
  | cons p rest ih =>
      intro i
      cases rest with
      | nil => simp [build_variants_go, build_variant_name]
      | cons q rest2 =>
          have h2 := ih (i + 1)
          simp only [build_variants_go] at h2 ⊢
          rw [List.getLast?_cons_cons, List.getLast?_cons_cons]
          exact h2

theorem build_variants_go_eq_nil (i : Nat) (z : List (String × String × ℚ)) :
    build_variants_go i z = [] ↔ z = [] := by
  cases z <;> simp [build_variants_go]

theorem build_variants_go_length (z : List (String × String × ℚ)) :
    ∀ i, (build_variants_go i z).length = z.length := by
  induction z with
  | nil => intro i; rfl
  | cons p rest ih => intro i; simp [build_variants_go, ih]

theorem zip3_length (ns : List String) :
    ∀ (ds : List String) (al : List ℚ),
      (zip3 ns ds al).length = min ns.length (min ds.length al.length) := by
  induction ns with
  | nil => intro ds al; simp [zip3]
  | cons n ns ih =>
      intro ds al
      cases ds with
      | nil => simp [zip3]
      | cons d ds =>
          cases al with
          | nil => simp [zip3]
          | cons a al =>
              simp only [zip3, List.length_cons, ih]
              omega

theorem zip3_third (ns : List String) :
    ∀ (ds : List String) (al : List ℚ), ns.length = ds.length →
      al.length = ns.length → (zip3 ns ds al).map (fun p => p.2.2) = al := by
  induction ns with
  | nil =>
      intro ds al h1 h2
      have : al = [] := List.length_eq_zero.mp (by simpa using h2)
      subst this
      rfl
  | cons n ns ih =>
      intro ds al h1 h2
      cases ds with
      | nil => simp at h1
      | cons d ds =>
          cases al with
          | nil => simp at h2
          | cons a al =>
              simp only [zip3, List.map_cons]
              rw [ih ds al (by simpa using h1) (by simpa using h2)]

theorem build_variants_go_alloc (z : List (String × String × ℚ)) :
    ∀ i, (build_variants_go i z).map Variant.traffic_allocation =
      z.map (fun p => p.2.2) := by
  induction z with
  | nil => intro i; rfl
  | cons p rest ih =>
      intro i
      simp only [build_variants_go, List.map_cons, build_variant_alloc, ih]

theorem create_core_ok (eid : String) (t : ℤ) (n d : String) (ty : ExperimentType)
    (ns ds : List String) (al : List ℚ) (ms : Nat) (cl : ℚ) (e : Experiment)
    (h : create_experiment_core eid t n d ty ns ds al ms cl = Except.ok e) :
    ¬ 1/1000 < |al.sum - 1|
    ∧ e.variants = build_variants ns ds al
    ∧ e.name = shadowed_name n ns ds al := by
  unfold create_experiment_core at h
  split at h
  · exact absurd h (by simp)
  · refine ⟨by assumption, ?_, ?_⟩ <;> · cases h; rfl

/-- Claim C10 (implicit): the loop variable `name` shadows the `name`
parameter, so every successfully created experiment whose variant list is
non-empty carries the name of the last variant created, not the supplied
name argument. -/
theorem claim_C10 (experiment_id : String) (created_at : ℤ)
    (name description : String) (ty : ExperimentType) (names descs : List String)
    (ta : Option (List ℚ)) (ms : Nat) (cl : ℚ) (e : Experiment)
    (h : create_experiment experiment_id created_at name description ty names descs
      ta ms cl = Except.ok e)
    (hne : e.variants ≠ []) :
    e.variants.getLast?.map Variant.name = some e.name := by
  have core : ∀ al, create_experiment_core experiment_id created_at name description
      ty names descs al ms cl = Except.ok e →
      e.variants.getLast?.map Variant.name = some e.name := by
    intro al hcore
    obtain ⟨-, hvar, hname⟩ := create_core_ok _ _ _ _ _ _ _ _ _ _ _ hcore
    have hz : zip3 names descs al ≠ [] := by
      intro hz
      exact hne (by rw [hvar, build_variants, (build_variants_go_eq_nil 0 _).mpr hz])
    cases hzl : (zip3 names descs al).getLast? with
    | none => exact absurd (List.getLast?_eq_none_iff.mp hzl) hz
    | some p =>
        rw [hvar, build_variants, build_variants_go_last_name, hzl, hname,
          shadowed_name, hzl]
        simp
  unfold create_experiment at h
  cases ta with
  | none =>
      by_cases h0 : names.length = 0
      · rw [if_pos h0] at h
        exact absurd h (by simp)
      · rw [if_neg h0] at h
        exact core _ h
  | some al => exact core _ h

/-- Witness for C10: a concrete creation call with supplied name
"Subject Line Test" produces an experiment named after the last variant. -/
theorem claim_C10_witness :
    sample_exp_c10.variants.getLast?.map Variant.name = some sample_exp_c10.name
    ∧ sample_exp_c10.name = "Variant A" := by
  have he : create_experiment "exp-c10" 0 "Subject Line Test" "d"
      ExperimentType.email_subject ["Control", "Variant A"] ["c", "v"] none 100
      (95/100) = Except.ok sample_exp_c10 := by
    norm_num [create_experiment, create_experiment_core, build_variants,
      build_variants_go, build_variant, zip3, shadowed_name, Variant.post_init,
      sample_exp_c10, List.replicate]
    exact ⟨rfl, rfl⟩
  exact ⟨claim_C10 _ _ _ _ _ _ _ _ _ _ _ he (by simp [sample_exp_c10]), rfl⟩

theorem create_experiment_some (eid : String) (t : ℤ) (n d : String)
    (ty : ExperimentType) (names descs : List String) (al : List ℚ) (ms : Nat)
    (cl : ℚ) :
    create_experiment eid t n d ty names descs (some al) ms cl =
      create_experiment_core eid t n d ty names descs al ms cl := rfl

theorem create_experiment_none (eid : String) (t : ℤ) (n d : String)
    (ty : ExperimentType) (names descs : List String) (ms : Nat) (cl : ℚ) :
    create_experiment eid t n d ty names descs none ms cl =
      if names.length = 0 then Except.error CreateError.zero_division
      else create_experiment_core eid t n d ty names descs
        (List.replicate names.length ((1 : ℚ) / (names.length : ℚ))) ms cl := rfl

/-- Claim C5 counterexample: `create_experiment` with a single variant
name (and matching single description) succeeds and creates a one-variant
experiment — no VALIDATION error is raised for fewer than 2 variants. -/
theorem claim_C5_counterexample :
    created_variant_count (create_experiment "exp-c5" 0 "Solo" "d"
      ExperimentType.custom ["A"] ["a"] none 100 (95/100)) = some 1 := by
  norm_num [create_experiment, create_experiment_core, created_variant_count,
    build_variants, build_variants_go, build_variant, zip3, List.replicate]

/-- Claim C5 (amended): `create_experiment` validates neither the variant
count nor the agreement of the list lengths: any call whose supplied
traffic allocation sums to 1.0 within 0.001 succeeds, with the zip
truncating the variants to the shortest of the three lists. -/
theorem claim_C5_amended (eid : String) (t : ℤ) (n d : String)
    (ty : ExperimentType) (names descs : List String) (al : List ℚ) (ms : Nat)
    (cl : ℚ) (h : |al.sum - 1| ≤ 1/1000) :
    ∃ e, create_experiment eid t n d ty names descs (some al) ms cl = Except.ok e
      ∧ e.variants.length = min names.length (min descs.length al.length) := by
  rw [create_experiment_some]
  unfold create_experiment_core
  rw [if_neg (not_lt.mpr h)]
  exact ⟨_, rfl, by simp [build_variants, build_variants_go_length, zip3_length]⟩

/-- Witness for the amended C5: two names, one description, a one-element
allocation summing to 1 — the call succeeds with one (truncated) variant. -/
theorem claim_C5_witness :
    ∃ e, create_experiment "exp-w5" 0 "W" "d" ExperimentType.custom ["X", "Y"]
        ["x"] (some [1]) 100 (95/100) = Except.ok e
      ∧ e.variants.length = min (List.length ["X", "Y"])
          (min (List.length ["x"]) (List.length [(1 : ℚ)])) :=
  claim_C5_amended "exp-w5" 0 "W" "d" ExperimentType.custom ["X", "Y"] ["x"]
    [1] 100 (95/100) (by norm_num)

/-- Claim C6 counterexample: with mismatched list lengths the allocation
sum is validated against the supplied list, but the persisted variants are
truncated, so a successfully created experiment can carry allocations
summing to 0.5 — far outside 1.0 ± 0.001. -/
theorem claim_C6_counterexample :
    created_alloc_sum (create_experiment "exp-c6" 0 "N" "d" ExperimentType.custom
      ["A"] ["a"] (some [1/2, 1/2]) 100 (95/100)) = some (1/2)
    ∧ ¬ |(1/2 : ℚ) - 1| ≤ 1/1000 := by
  constructor
  · norm_num [create_experiment, create_experiment_core, created_alloc_sum,
      build_variants, build_variants_go, build_variant, zip3, Variant.post_init]
  · intro hle
    rw [show |(1/2 : ℚ) - 1| = 1/2 by
      rw [show (1/2 : ℚ) - 1 = -(1/2) by norm_num, abs_neg,
        abs_of_pos (show (0:ℚ) < 1/2 by norm_num)]] at hle
    norm_num at hle

/-- Claim C6 (amended): the validation error is raised exactly when the
effective traffic allocation list does not sum to 1.0 within 0.001; an
omitted allocation with at least one variant name always succeeds; and
whenever the three input lists have equal lengths (in particular for the
defaulted equal split), the created experiment's variant allocations sum
to 1.0 within 0.001.  (With mismatched lengths the persisted sum can
differ, per the counterexample.) -/
theorem claim_C6_amended :
    (∀ eid t n d ty names descs al ms cl,
      create_experiment eid t n d ty names descs (some al) ms cl =
        Except.error (CreateError.validation "Traffic allocation must sum to 1.0")
      ↔ 1/1000 < |al.sum - 1|)
    ∧ (∀ eid t n d ty names descs ms cl, names ≠ [] →
        is_ok (create_experiment eid t n d ty names descs none ms cl) = true)
    ∧ (∀ eid t n d ty names descs ta ms cl e,
        create_experiment eid t n d ty names descs ta ms cl = Except.ok e →
        names.length = descs.length →
        (∀ al, ta = some al → al.length = names.length) →
        |(e.variants.map Variant.traffic_allocation).sum - 1| ≤ 1/1000) := by
  have hsum_repl : ∀ names : List String, names ≠ [] →
      (List.replicate names.length ((1 : ℚ) / (names.length : ℚ))).sum = 1 := by
    intro names hne
    have hn : (names.length : ℚ) ≠ 0 := by
      exact_mod_cast fun h => hne (List.length_eq_zero.mp (by exact_mod_cast h))
    rw [List.sum_replicate, nsmul_eq_mul, mul_one_div_cancel hn]
  refine ⟨?_, ?_, ?_⟩
  · intro eid t n d ty names descs al ms cl
    rw [create_experiment_some]
    unfold create_experiment_core
    constructor
    · intro h
      by_cases hc : 1/1000 < |al.sum - 1|
      · exact hc
      · rw [if_neg hc] at h
        exact absurd h (by simp)
    · intro hc
      rw [if_pos hc]
  · intro eid t n d ty names descs ms cl hne
    rw [create_experiment_none]
    rw [if_neg (fun h => hne (List.length_eq_zero.mp h))]
    unfold create_experiment_core
    rw [if_neg (by rw [hsum_repl names hne]; norm_num)]
    rfl
  · intro eid t n d ty names descs ta ms cl e h hlen hta
    have core : ∀ al, al.length = names.length →
        create_experiment_core eid t n d ty names descs al ms cl = Except.ok e →
        |(e.variants.map Variant.traffic_allocation).sum - 1| ≤ 1/1000 := by
      intro al hal hcore
      obtain ⟨hnl, hvar, -⟩ := create_core_ok _ _ _ _ _ _ _ _ _ _ _ hcore
      rw [hvar, build_variants, build_variants_go_alloc,
        zip3_third names descs al hlen hal]
      exact not_lt.mp hnl
    cases ta with
    | none =>
        rw [create_experiment_none] at h
        by_cases h0 : names.length = 0
        · rw [if_pos h0] at h
          exact absurd h (by simp)
        · rw [if_neg h0] at h
          exact core _ (List.length_replicate _ _) h
    | some al =>
        rw [create_experiment_some] at h
        exact core al (hta al rfl) h

/-- Witness for the amended C6 at concrete inputs: a defaulted equal split
succeeds, and a supplied allocation summing to 2 fails validation. -/
theorem claim_C6_witness :
    is_ok (create_experiment "exp-w6" 0 "W" "d" ExperimentType.custom
      ["A", "B"] ["a", "b"] none 100 (95/100)) = true
    ∧ create_experiment "exp-w6b" 0 "W" "d" ExperimentType.custom ["A", "B"]
        ["a", "b"] (some [1, 1]) 100 (95/100) =
      Except.error (CreateError.validation "Traffic allocation must sum to 1.0") :=
  ⟨claim_C6_amended.2.1 "exp-w6" 0 "W" "d" ExperimentType.custom ["A", "B"]
      ["a", "b"] 100 (95/100) (by simp),
   (claim_C6_amended.1 "exp-w6b" 0 "W" "d" ExperimentType.custom ["A", "B"]
      ["a", "b"] [1, 1] 100 (95/100)).mpr (by norm_num)⟩

/-- Claim C7 counterexample: the stored experiment already has
`start_date = 5`, yet `start_experiment` at time 7 returns `start_date = 7`
— the source sets `start_date = datetime.utcnow()` unconditionally, so a
repeat invocation does NOT leave the existing start_date unchanged. -/
theorem claim_C7_counterexample :
    (find_experiment sample_store_started "e1").map Experiment.start_date =
      some (some 5)
    ∧ start_result_start_date (start_experiment sample_store_started 7 "e1") =
      some (some 7)
    ∧ some (7 : ℤ) ≠ some (5 : ℤ) := by
  refine ⟨?_, ?_, by decide⟩
  · simp [sample_store_started, find_experiment, sample_exp_started]
  · simp [start_result_start_date, start_experiment, load_experiment,
      find_experiment, sample_store_started, Except.map, sample_exp_started]

/-- Claim C7 (amended): `start_experiment` fails with the not-found error
when no such experiment exists; otherwise it sets status=RUNNING and
UNCONDITIONALLY overwrites `start_date` with the current time (also on
repeat invocations), persists, and returns the updated record. -/
theorem claim_C7_amended (store : Store) (now : ℤ) (experiment_id : String) :
    (find_experiment store experiment_id = none →
      start_experiment store now experiment_id =
        Except.error ("Experiment " ++ experiment_id ++ " not found"))
    ∧ (∀ e, find_experiment store experiment_id = some e →
        start_experiment store now experiment_id =
          Except.ok (started_copy e now,
            save_experiment store (started_copy e now))) := by
  constructor
  · intro hf
    unfold start_experiment load_experiment
    rw [hf]
    rfl
  · intro e hf
    unfold start_experiment load_experiment
    rw [hf]
    rfl

/-- Witness for the amended C7 at the concrete started store. -/
theorem claim_C7_witness :
    start_experiment sample_store_started 7 "e1" =
      Except.ok (started_copy sample_exp_started 7,
        save_experiment sample_store_started (started_copy sample_exp_started 7)) :=
  (claim_C7_amended sample_store_started 7 "e1").2 sample_exp_started
    (by simp [find_experiment, sample_store_started])

theorem update_first_no_match (vs : List Variant) (vid : String)
    (f : Variant → Variant) (h : ∀ v ∈ vs, v.id ≠ vid) :
    update_first vs vid f = vs := by
  induction vs with
  | nil => rfl
  | cons v rest ih =>
      unfold update_first
      rw [if_neg (h v (by simp))]
      rw [ih (fun w hw => h w (by simp [hw]))]

theorem save_found (s : Store) (eid : String) (e : Experiment)
    (hid : e.id = eid) :
    find_experiment s eid = some e → save_experiment s e = s := by
  induction s with
  | nil => intro h; simp [find_experiment] at h
  | cons p rest ih =>
      intro h
      obtain ⟨k, v⟩ := p
      unfold find_experiment at h
      unfold save_experiment
      by_cases hk : k = eid
      · rw [if_pos hk] at h
        have hv : v = e := Option.some.inj h
        have hk2 : k = e.id := by rw [hid]; exact hk
        rw [if_pos hk2, hk2, hv]
      · rw [if_neg hk] at h
        rw [if_neg (fun hke => hk (hke.trans hid))]
        rw [ih h]

/-- Claim C8: recording an impression or a conversion against a variant id
absent from the experiment raises no error and leaves the whole store —
hence every variant's impressions, conversions, revenue, conversion_rate
and revenue_per_visitor — unchanged. -/
theorem claim_C8 (store : Store) (experiment_id variant_id : String)
    (e : Experiment) (r : ℚ)
    (hload : find_experiment store experiment_id = some e)
    (hid : e.id = experiment_id)
    (hmiss : ∀ v ∈ e.variants, v.id ≠ variant_id) :
    record_impression store experiment_id variant_id = Except.ok store
    ∧ record_conversion store experiment_id variant_id r = Except.ok store := by
  have hsave : save_experiment store e = store :=
    save_found store experiment_id e hid hload
  constructor
  · unfold record_impression load_experiment
    rw [hload]
    show Except.ok (save_experiment store
      { e with variants := update_first e.variants variant_id _ }) = Except.ok store
    rw [update_first_no_match e.variants variant_id _ hmiss]
    show Except.ok (save_experiment store e) = Except.ok store
    rw [hsave]
  · unfold record_conversion load_experiment
    rw [hload]
    show Except.ok (save_experiment store
      { e with variants := update_first e.variants variant_id _ }) = Except.ok store
    rw [update_first_no_match e.variants variant_id _ hmiss]
    show Except.ok (save_experiment store e) = Except.ok store
    rw [hsave]

/-- Witness for C8: an unknown variant id against the concrete store. -/
theorem claim_C8_witness :
    record_impression sample_store2 "e1" "nope" = Except.ok sample_store2
    ∧ record_conversion sample_store2 "e1" "nope" 3 = Except.ok sample_store2 :=
  claim_C8 sample_store2 "e1" "nope" sample_exp2 3
    (by simp [find_experiment, sample_store2]) rfl
    (by simp [sample_exp2, sample_vA, sample_vB])

theorem find_experiment_mem (s : Store) (id : String) (e : Experiment) :
    find_experiment s id = some e → (id, e) ∈ s := by
  induction s with
  | nil => intro h; simp [find_experiment] at h
  | cons p rest ih =>
      intro h
      obtain ⟨k, v⟩ := p
      unfold find_experiment at h
      by_cases hk : k = id
      · rw [if_pos hk] at h
        subst hk
        rw [Option.some.inj h]
        exact List.mem_cons_self _ _
      · rw [if_neg hk] at h
        exact List.mem_cons_of_mem _ (ih h)

theorem store_ok_save (s : Store) (e : Experiment) (hs : store_ok s)
    (he : ∀ v ∈ e.variants, metrics_ok v) : store_ok (save_experiment s e) := by
  induction s with
  | nil =>
      intro p hp v hv
      simp only [save_experiment, List.mem_singleton] at hp
      subst hp
      exact he v hv
  | cons q rest ih =>
      obtain ⟨k, w⟩ := q
      unfold save_experiment
      by_cases hk : k = e.id
      · rw [if_pos hk]
        intro p hp v hv
        rcases List.mem_cons.mp hp with h1 | h1
        · subst h1; exact he v hv
        · exact hs p (List.mem_cons_of_mem _ h1) v hv
      · rw [if_neg hk]
        intro p hp v hv
        rcases List.mem_cons.mp hp with h1 | h1
        · subst h1; exact hs (k, w) (List.mem_cons_self _ _) v hv
        · exact ih (fun q hq => hs q (List.mem_cons_of_mem _ hq)) p h1 v hv

theorem store_ok_find (s : Store) (id : String) (e : Experiment)
    (hs : store_ok s) (h : find_experiment s id = some e) :
    ∀ v ∈ e.variants, metrics_ok v :=
  hs (id, e) (find_experiment_mem s id e h)

theorem metrics_ok_post_init_pos (v : Variant) (h : 0 < v.impressions) :
    metrics_ok (Variant.post_init v) := by
  unfold Variant.post_init
  rw [if_pos h]
  exact ⟨fun h0 => absurd h0 (Nat.pos_iff_ne_zero.mp h), fun _ => ⟨rfl, rfl⟩⟩

theorem metrics_ok_impression_step (v : Variant) :
    metrics_ok (Variant.post_init { v with impressions := v.impressions + 1 }) :=
  metrics_ok_post_init_pos _ (Nat.succ_pos _)

theorem metrics_ok_conversion_step (v : Variant) (r : ℚ) (hv : metrics_ok v) :
    metrics_ok (Variant.post_init
      { v with conversions := v.conversions + 1, revenue := v.revenue + r }) := by
  by_cases h0 : v.impressions = 0
  · unfold Variant.post_init
    rw [if_neg (by simp [h0])]
    exact ⟨fun _ => hv.1 h0, fun hpos => absurd hpos (by simp [h0])⟩
  · exact metrics_ok_post_init_pos _ (Nat.pos_of_ne_zero h0)

theorem update_first_mem (vs : List Variant) (vid : String) (f : Variant → Variant)
    (v' : Variant) (h : v' ∈ update_first vs vid f) :
    v' ∈ vs ∨ ∃ v, v ∈ vs ∧ v' = f v := by
  induction vs with
  | nil => simp [update_first] at h
  | cons v rest ih =>
      unfold update_first at h
      by_cases hv : v.id = vid
      · rw [if_pos hv] at h
        rcases List.mem_cons.mp h with h1 | h1
        · exact Or.inr ⟨v, List.mem_cons_self _ _, h1⟩
        · exact Or.inl (List.mem_cons_of_mem _ h1)
      · rw [if_neg hv] at h
        rcases List.mem_cons.mp h with h1 | h1
        · exact Or.inl (h1 ▸ List.mem_cons_self _ _)
        · rcases ih h1 with h2 | ⟨w, hw, hw2⟩
          · exact Or.inl (List.mem_cons_of_mem _ h2)
          · exact Or.inr ⟨w, List.mem_cons_of_mem _ hw, hw2⟩

theorem metrics_ok_build (i : Nat) (n d : String) (a : ℚ) :
    metrics_ok (build_variant i n d a) := by
  unfold build_variant Variant.post_init metrics_ok
  norm_num

theorem build_variants_go_mem (z : List (String × String × ℚ)) :
    ∀ i v, v ∈ build_variants_go i z →
      ∃ (j : Nat) (p : String × String × ℚ), v = build_variant j p.1 p.2.1 p.2.2 := by
  induction z with
  | nil => intro i v h; simp [build_variants_go] at h
  | cons p rest ih =>
      intro i v h
      unfold build_variants_go at h
      rcases List.mem_cons.mp h with h1 | h1
      · exact ⟨i, p, h1⟩
      · exact ih (i + 1) v h1

/-- Claim C9: every engine operation preserves the derived-metrics
invariant — each variant's conversion_rate is 0 at zero impressions and
(conversions/impressions)·100 otherwise, and revenue_per_visitor is 0 at
zero impressions and revenue/impressions otherwise (exact in ℚ). -/
theorem claim_C9 :
    (∀ eid t n d ty names descs ta ms cl e,
        create_experiment eid t n d ty names descs ta ms cl = Except.ok e →
        ∀ v ∈ e.variants, metrics_ok v)
    ∧ (∀ store now eid out, store_ok store →
        start_experiment store now eid = Except.ok out → store_ok out.2)
    ∧ (∀ store eid out, store_ok store →
        pause_experiment store eid = Except.ok out → store_ok out.2)
    ∧ (∀ store now eid out, store_ok store →
        complete_experiment store now eid = Except.ok out → store_ok out.2)
    ∧ (∀ store eid vid st2, store_ok store →
        record_impression store eid vid = Except.ok st2 → store_ok st2)
    ∧ (∀ store eid vid r st2, store_ok store →
        record_conversion store eid vid r = Except.ok st2 → store_ok st2) := by
  have hcore : ∀ eid t n d ty names descs al ms cl e,
      create_experiment_core eid t n d ty names descs al ms cl = Except.ok e →
      ∀ v ∈ e.variants, metrics_ok v := by
    intro eid t n d ty names descs al ms cl e h v hv
    obtain ⟨-, hvar, -⟩ := create_core_ok _ _ _ _ _ _ _ _ _ _ _ h
    rw [hvar, build_variants] at hv
    obtain ⟨j, p, hp⟩ := build_variants_go_mem _ _ _ hv
    rw [hp]
    exact metrics_ok_build _ _ _ _
  refine ⟨?_, ?_, ?_, ?_, ?_, ?_⟩
  · intro eid t n d ty names descs ta ms cl e h
    cases ta with
    | none =>
        rw [create_experiment_none] at h
        by_cases h0 : names.length = 0
        · rw [if_pos h0] at h
          exact absurd h (by simp)
        · rw [if_neg h0] at h
          exact hcore _ _ _ _ _ _ _ _ _ _ _ h
    | some al =>
        rw [create_experiment_some] at h
        exact hcore _ _ _ _ _ _ _ _ _ _ _ h
  · intro store now eid out hs h
    unfold start_experiment load_experiment at h
    cases hfind : find_experiment store eid with
    | none => rw [hfind] at h; exact absurd h (by simp [Except.map])
    | some e =>
        rw [hfind] at h
        simp only [Except.map] at h
        rw [← Option.some.inj (congrArg Except.toOption h)]
        exact store_ok_save store _ hs (store_ok_find store eid e hs hfind)
  · intro store eid out hs h
    unfold pause_experiment load_experiment at h
    cases hfind : find_experiment store eid with
    | none => rw [hfind] at h; exact absurd h (by simp [Except.map])
    | some e =>
        rw [hfind] at h
        simp only [Except.map] at h
        rw [← Option.some.inj (congrArg Except.toOption h)]
        exact store_ok_save store _ hs (store_ok_find store eid e hs hfind)
  · intro store now eid out hs h
    unfold complete_experiment load_experiment at h
    cases hfind : find_experiment store eid with
    | none => rw [hfind] at h; exact absurd h (by simp [Except.map])
    | some e =>
        rw [hfind] at h
        simp only [Except.map] at h
        rw [← Option.some.inj (congrArg Except.toOption h)]
        exact store_ok_save store _ hs (store_ok_find store eid e hs hfind)
  · intro store eid vid st2 hs h
    unfold record_impression load_experiment at h
    cases hfind : find_experiment store eid with
    | none => rw [hfind] at h; exact absurd h (by simp [Except.map])
    | some e =>
        rw [hfind] at h
        simp only [Except.map] at h
        rw [← Option.some.inj (congrArg Except.toOption h)]
        refine store_ok_save store _ hs ?_
        intro v hv
        rcases update_first_mem _ _ _ _ hv with h1 | ⟨w, hw, hw2⟩
        · exact store_ok_find store eid e hs hfind v h1
        · rw [hw2]
          exact metrics_ok_impression_step w
  · intro store eid vid r st2 hs h
    unfold record_conversion load_experiment at h
    cases hfind : find_experiment store eid with
    | none => rw [hfind] at h; exact absurd h (by simp [Except.map])
    | some e =>
        rw [hfind] at h
        simp only [Except.map] at h
        rw [← Option.some.inj (congrArg Except.toOption h)]
        refine store_ok_save store _ hs ?_
        intro v hv
        rcases update_first_mem _ _ _ _ hv with h1 | ⟨w, hw, hw2⟩
        · exact store_ok_find store eid e hs hfind v h1
        · rw [hw2]
          exact metrics_ok_conversion_step w r
            (store_ok_find store eid e hs hfind w hw)

/-- Witness for C9: the invariant is preserved by a concrete
`start_experiment` call on the concrete store. -/
theorem claim_C9_witness :
    store_ok (save_experiment sample_store_started (started_copy sample_exp_started 7)) :=
  claim_C9.2.1 sample_store_started 7 "e1"
    (started_copy sample_exp_started 7,
      save_experiment sample_store_started (started_copy sample_exp_started 7))
    (by norm_num [store_ok, sample_store_started, sample_exp_started, metrics_ok])
    (by simp [start_experiment, load_experiment, find_experiment,
      sample_store_started, Except.map, started_copy])

end ABTesting

namespace Reminders

theorem esc_cons (sent : List String) (b bid : String) :
    email_sent_count (b :: sent) bid =
      email_sent_count sent bid + (if b == bid then 1 else 0) := by
  simp [email_sent_count, List.countP_cons]

theorem elc_cons_email (log : List ReminderLog) (tid b bid : String) :
    email_log_count (⟨tid, b, "email", "before"⟩ :: log) bid =
      email_log_count log bid + (if b == bid then 1 else 0) := by
  simp only [email_log_count, List.countP_cons]
  simp

theorem elc_cons_sms (log : List ReminderLog) (tid b bid : String) :
    email_log_count (⟨tid, b, "sms", "before"⟩ :: log) bid =
      email_log_count log bid := by
  simp [email_log_count, List.countP_cons]

theorem log_not_has_elc_zero (log : List ReminderLog) (bid : String)
    (h : ¬ log_has log bid "email" "before" = true) :
    email_log_count log bid = 0 := by
  rw [log_has, List.any_eq_true] at h
  push_neg at h
  rw [email_log_count, List.countP_eq_zero]
  intro a ha
  exact h a ha

theorem process_email_inv (env : RunEnv) (tid : String) (st : SchedState)
    (b : Booking) (hinv : email_inv st) : email_inv (process_email env tid st b) := by
  unfold email_inv at hinv ⊢
  intro bid
  unfold process_email
  split_ifs with hA hB hC
  · exact hinv bid
  · obtain ⟨heq, hle⟩ := hinv bid
    simp only [esc_cons, elc_cons_email]
    cases hbool : (b.id == bid) with
    | false =>
        simp [hbool]
        exact ⟨heq, hle⟩
    | true =>
        have hbid : b.id = bid := eq_of_beq hbool
        have h0 : email_log_count st.reminder_log bid = 0 := by
          rw [← hbid]
          exact log_not_has_elc_zero _ _ hB
        have hs0 : email_sent_count st.sent_emails bid = 0 := heq.trans h0
        simp [hbool, hs0, h0]
  · exact hinv bid
  · exact hinv bid

theorem process_email_other (env : RunEnv) (tid : String) (st : SchedState)
    (b : Booking) (bid : String) (hne : b.id ≠ bid) :
    email_sent_count (process_email env tid st b).sent_emails bid =
      email_sent_count st.sent_emails bid
    ∧ email_log_count (process_email env tid st b).reminder_log bid =
      email_log_count st.reminder_log bid := by
  unfold process_email
  split_ifs
  · exact ⟨rfl, rfl⟩
  · simp [esc_cons, elc_cons_email, beq_eq_false_iff_ne.mpr hne]
  · exact ⟨rfl, rfl⟩
  · exact ⟨rfl, rfl⟩

theorem process_email_logged (env : RunEnv) (tid : String) (st : SchedState)
    (b : Booking) (bid : String) (hlog : 0 < email_log_count st.reminder_log bid) :
    email_sent_count (process_email env tid st b).sent_emails bid =
      email_sent_count st.sent_emails bid
    ∧ 0 < email_log_count (process_email env tid st b).reminder_log bid := by
  by_cases hne : b.id = bid
  · subst hne
    unfold process_email
    split_ifs with hA hB hC
    · exact ⟨rfl, hlog⟩
    · exact absurd (log_not_has_elc_zero _ _ hB) (by omega)
    · exact ⟨rfl, hlog⟩
    · exact ⟨rfl, hlog⟩
  · obtain ⟨h1, h2⟩ := process_email_other env tid st b bid hne
    exact ⟨h1, h2 ▸ hlog⟩

theorem process_sms_email_counts (env : RunEnv) (tid : String) (st : SchedState)
    (b : Booking) (bid : String) :
    email_sent_count (process_sms env tid st b).sent_emails bid =
      email_sent_count st.sent_emails bid
    ∧ email_log_count (process_sms env tid st b).reminder_log bid =
      email_log_count st.reminder_log bid := by
  unfold process_sms
  split_ifs
  · exact ⟨rfl, rfl⟩
  · exact ⟨rfl, elc_cons_sms _ _ _ _⟩
  · exact ⟨rfl, rfl⟩
  · exact ⟨rfl, rfl⟩

theorem process_booking_inv (env : RunEnv) (tid : String) (st : SchedState)
    (b : Booking) (hinv : email_inv st) :
    email_inv (process_booking env tid st b) := by
  have hpe := process_email_inv env tid st b hinv
  unfold email_inv at hpe ⊢
  intro bid
  obtain ⟨h1, h2⟩ :=
    process_sms_email_counts env tid (process_email env tid st b) b bid
  unfold process_booking
  rw [h1, h2]
  exact hpe bid

theorem process_booking_other (env : RunEnv) (tid : String) (st : SchedState)
    (b : Booking) (bid : String) (hne : b.id ≠ bid) :
    email_sent_count (process_booking env tid st b).sent_emails bid =
      email_sent_count st.sent_emails bid
    ∧ email_log_count (process_booking env tid st b).reminder_log bid =
      email_log_count st.reminder_log bid := by
  obtain ⟨h1, h2⟩ := process_email_other env tid st b bid hne
  obtain ⟨h3, h4⟩ :=
    process_sms_email_counts env tid (process_email env tid st b) b bid
  exact ⟨h3.trans h1, h4.trans h2⟩

theorem process_booking_logged (env : RunEnv) (tid : String) (st : SchedState)
    (b : Booking) (bid : String) (hlog : 0 < email_log_count st.reminder_log bid) :
    email_sent_count (process_booking env tid st b).sent_emails bid =
      email_sent_count st.sent_emails bid
    ∧ 0 < email_log_count (process_booking env tid st b).reminder_log bid := by
  obtain ⟨h1, h2⟩ := process_email_logged env tid st b bid hlog
  obtain ⟨h3, h4⟩ :=
    process_sms_email_counts env tid (process_email env tid st b) b bid
  exact ⟨h3.trans h1, h4 ▸ h2⟩

theorem process_bookings_inv (env : RunEnv) (tid : String) :
    ∀ (bs : List Booking) (st : SchedState), email_inv st →
      email_inv (process_bookings env tid st bs) := by
  intro bs
  induction bs with
  | nil => intro st h; exact h
  | cons b rest ih =>
      intro st h
      exact ih _ (process_booking_inv env tid st b h)

theorem process_bookings_other (env : RunEnv) (tid : String) :
    ∀ (bs : List Booking) (st : SchedState) (bid : String),
      (∀ b ∈ bs, b.id ≠ bid) →
      email_sent_count (process_bookings env tid st bs).sent_emails bid =
        email_sent_count st.sent_emails bid
      ∧ email_log_count (process_bookings env tid st bs).reminder_log bid =
        email_log_count st.reminder_log bid := by
  intro bs
  induction bs with
  | nil => intro st bid h; exact ⟨rfl, rfl⟩
  | cons b rest ih =>
      intro st bid h
      obtain ⟨h1, h2⟩ := process_booking_other env tid st b bid
        (h b (List.mem_cons_self _ _))
      obtain ⟨h3, h4⟩ := ih (process_booking env tid st b) bid
        (fun x hx => h x (List.mem_cons_of_mem _ hx))
      exact ⟨h3.trans h1, h4.trans h2⟩

theorem process_bookings_logged (env : RunEnv) (tid : String) :
    ∀ (bs : List Booking) (st : SchedState) (bid : String),
      0 < email_log_count st.reminder_log bid →
      email_sent_count (process_bookings env tid st bs).sent_emails bid =
        email_sent_count st.sent_emails bid
      ∧ 0 < email_log_count (process_bookings env tid st bs).reminder_log bid := by
  intro bs
  induction bs with
  | nil => intro st bid h; exact ⟨rfl, h⟩
  | cons b rest ih =>
      intro st bid h
      obtain ⟨h1, h2⟩ := process_booking_logged env tid st b bid h
      obtain ⟨h3, h4⟩ := ih (process_booking env tid st b) bid h2
      exact ⟨h3.trans h1, h4⟩

theorem candidate_tenant_eq (env : RunEnv) (tid : String) (b : Booking)
    (h : is_candidate env tid b = true) : b.tenant_id = tid := by
  unfold is_candidate at h
  simp only [Bool.and_eq_true] at h
  exact eq_of_beq h.1.1.1

theorem process_tenant_inv (env : RunEnv) (st : SchedState) (tid : String)
    (hinv : email_inv st) : email_inv (process_tenant env st tid) :=
  process_bookings_inv env tid _ st hinv

theorem process_tenant_other (env : RunEnv) (st : SchedState) (tid : String)
    (bid : String)
    (h : ∀ b ∈ env.bookings, b.id = bid → is_candidate env b.tenant_id b = false) :
    email_sent_count (process_tenant env st tid).sent_emails bid =
      email_sent_count st.sent_emails bid
    ∧ email_log_count (process_tenant env st tid).reminder_log bid =
      email_log_count st.reminder_log bid := by
  apply process_bookings_other
  intro b hb heq
  have hcand : is_candidate env tid b = true := (List.mem_filter.mp hb).2
  have htid : b.tenant_id = tid := candidate_tenant_eq env tid b hcand
  have hfalse := h b (List.mem_filter.mp hb).1 heq
  rw [htid] at hfalse
  rw [hfalse] at hcand
  exact Bool.false_ne_true hcand

theorem process_tenant_logged (env : RunEnv) (st : SchedState) (tid bid : String)
    (hlog : 0 < email_log_count st.reminder_log bid) :
    email_sent_count (process_tenant env st tid).sent_emails bid =
      email_sent_count st.sent_emails bid
    ∧ 0 < email_log_count (process_tenant env st tid).reminder_log bid :=
  process_bookings_logged env tid _ st bid hlog

theorem run_tenants_inv (env : RunEnv) :
    ∀ (ts : List String) (st : SchedState), email_inv st →
      email_inv (run_tenants env ts st) := by
  intro ts
  induction ts with
  | nil => intro st h; exact h
  | cons tid rest ih =>
      intro st h
      unfold run_tenants
      split_ifs
      · exact h
      · exact ih _ (process_tenant_inv env st tid h)

theorem run_tenants_other (env : RunEnv) (bid : String)
    (h : ∀ b ∈ env.bookings, b.id = bid → is_candidate env b.tenant_id b = false) :
    ∀ (ts : List String) (st : SchedState),
      email_sent_count (run_tenants env ts st).sent_emails bid =
        email_sent_count st.sent_emails bid := by
  intro ts
  induction ts with
  | nil => intro st; rfl
  | cons tid rest ih =>
      intro st
      unfold run_tenants
      split_ifs
      · rfl
      · exact (ih _).trans (process_tenant_other env st tid bid h).1

theorem run_tenants_logged (env : RunEnv) (bid : String) :
    ∀ (ts : List String) (st : SchedState),
      0 < email_log_count st.reminder_log bid →
      email_sent_count (run_tenants env ts st).sent_emails bid =
        email_sent_count st.sent_emails bid := by
  intro ts
  induction ts with
  | nil => intro st _; rfl
  | cons tid rest ih =>
      intro st hlog
      unfold run_tenants
      split_ifs
      · rfl
      · obtain ⟨h1, h2⟩ := process_tenant_logged env st tid bid hlog
        exact (ih _ h2).trans h1

theorem run_all_inv : ∀ (envs : List RunEnv) (st : SchedState), email_inv st →
    email_inv (run_all envs st) := by
  intro envs
  induction envs with
  | nil => intro st h; exact h
  | cons env rest ih =>
      intro st h
      exact ih _ (run_tenants_inv env env.tenants st h)

theorem email_inv_init : email_inv init_state := by
  intro bid
  simp [init_state, email_sent_count, email_log_count]

/-- Claim C3: across any sequence of scheduler runs from the initial
state, at most one email reminder is ever dispatched per booking (the
(booking_id, "email", "before") dedup key); a run changes a booking's
email-dispatch count only when the bookings table holds a confirmed
booking with that id inside its tenant's reminder window, and once a
dedup log entry exists every later run leaves the count unchanged. -/
theorem claim_C3 :
    (∀ (envs : List RunEnv) (bid : String),
      email_sent_count (run_all envs init_state).sent_emails bid ≤ 1)
    ∧ (∀ (env : RunEnv) (st : SchedState) (bid : String),
        (∀ b ∈ env.bookings, b.id = bid → is_candidate env b.tenant_id b = false) →
        email_sent_count (send_booking_reminders env st).sent_emails bid =
          email_sent_count st.sent_emails bid)
    ∧ (∀ (env : RunEnv) (st : SchedState) (bid : String),
        0 < email_log_count st.reminder_log bid →
        email_sent_count (send_booking_reminders env st).sent_emails bid =
          email_sent_count st.sent_emails bid) := by
  refine ⟨?_, ?_, ?_⟩
  · intro envs bid
    exact (run_all_inv envs init_state email_inv_init bid).2
  · intro env st bid h
    exact run_tenants_other env bid h env.tenants st
  · intro env st bid h
    exact run_tenants_logged env bid env.tenants st h

/-- Witness for C3 at the concrete one-tenant environment. -/
theorem claim_C3_witness :
    email_sent_count (run_all [sample_envC3, sample_envC3] init_state).sent_emails
      "b2" ≤ 1
    ∧ email_sent_count (send_booking_reminders sample_envC3 init_state).sent_emails
        "zz" = email_sent_count init_state.sent_emails "zz"
    ∧ email_sent_count
        (send_booking_reminders sample_envC3 sample_logged_state).sent_emails "b2" =
      email_sent_count sample_logged_state.sent_emails "b2" :=
  ⟨claim_C3.1 [sample_envC3, sample_envC3] "b2",
   claim_C3.2.1 sample_envC3 init_state "zz" (by decide),
   claim_C3.2.2 sample_envC3 sample_logged_state "b2" (by decide)⟩

/-- Claim C4 counterexample: in `sample_envC4` the first tenant raises
during its processing and the second tenant has a deliverable reminder;
the source's try/except wraps the WHOLE tenant loop, so the remaining
tenant is NOT processed (no email is dispatched), whereas the spec's
per-tenant isolation (modelled by `send_booking_reminders_isolated`)
would have dispatched it. -/
theorem claim_C4_counterexample :
    email_sent_count (send_booking_reminders sample_envC4 init_state).sent_emails
      "b2" = 0
    ∧ email_sent_count
        (send_booking_reminders_isolated sample_envC4 init_state).sent_emails
        "b2" = 1 := by
  constructor <;> decide

theorem run_tenants_fail_split (env : RunEnv) (t : String) (post : List String)
    (hfail : env.tenant_fails t = true) :
    ∀ (pre : List String) (st : SchedState),
      (∀ x ∈ pre, env.tenant_fails x = false) →
      run_tenants env (pre ++ t :: post) st = process_tenants env st pre := by
  intro pre
  induction pre with
  | nil =>
      intro st h
      simp [run_tenants, process_tenants, hfail]
  | cons a pre ih =>
      intro st h
      rw [List.cons_append]
      simp only [run_tenants, process_tenants, h a (List.mem_cons_self a pre)]
      simp only [Bool.false_eq_true, if_false]
      exact ih (process_tenant env st a)
        (fun x hx => h x (List.mem_cons_of_mem _ hx))

/-- Claim C4 (amended): an unhandled exception in one tenant's processing
is caught at the boundary of the WHOLE sweep (the run terminates without
crashing and keeps the effects of tenants processed before the failure),
but the remaining tenants are NOT processed in that run — the try/except
wraps the entire tenant loop, not each iteration. -/
theorem claim_C4_amended (env : RunEnv) (st : SchedState) (pre : List String)
    (t : String) (post : List String)
    (hten : env.tenants = pre ++ t :: post)
    (hpre : ∀ x ∈ pre, env.tenant_fails x = false)
    (hfail : env.tenant_fails t = true) :
    send_booking_reminders env st = process_tenants env st pre := by
  unfold send_booking_reminders
  rw [hten]
  exact run_tenants_fail_split env t post hfail pre st hpre

/-- Witness for the amended C4 at the concrete failing environment. -/
theorem claim_C4_witness :
    send_booking_reminders sample_envC4 init_state =
      process_tenants sample_envC4 init_state [] :=
  claim_C4_amended sample_envC4 init_state [] "t1" ["t2"] rfl
    (by intro x hx; simp at hx) (by decide)

end Reminders
